import Mathlib

/-!
# Verification of the Enhanced-3DScene core

A shallow embedding, over the rationals, of the scene/camera/view core of the
repository: `SceneManager` (transform composition, material table, texture
registry, shader-uniform pushes), `ViewManager` (mouse tracking, projection
selection, per-frame view/projection pushes) and `DbHelper` (the optional
persistence store).  GPU and windowing collaborators are modelled as traces:
the shader manager is a list of named uniform writes, the GL texture module is
a state recording generated handles, uploads and deletions.

Trigonometric functions are irrational, so rotation matrices are parameterised
by abstract cosine/sine functions `c s : ℚ → ℚ` standing for
`cos ∘ glm::radians` and `sin ∘ glm::radians` applied to angles in degrees;
every algebraic fact proved here holds for all interpretations of `c` and `s`.
-/

set_option autoImplicit false

namespace Scene3D

/-- A 3-component vector over the rationals, modelling `glm::vec3`. -/
structure Vec3 where
  x : ℚ
  y : ℚ
  z : ℚ
deriving DecidableEq, Repr

/-- A 4-component vector over the rationals, modelling `glm::vec4`. -/
structure Vec4 where
  r : ℚ
  g : ℚ
  b : ℚ
  a : ℚ
deriving DecidableEq, Repr

/-- 4×4 rational matrices, modelling `glm::mat4`. -/
abbrev Mat4 := Matrix (Fin 4) (Fin 4) ℚ

/-- `glm::scale(v)`: the diagonal scaling matrix. -/
def scaleM (v : Vec3) : Mat4 :=
  !![v.x, 0, 0, 0; 0, v.y, 0, 0; 0, 0, v.z, 0; 0, 0, 0, 1]

/-- `glm::rotate(glm::radians(deg), vec3(1,0,0))`: rotation about the X axis.
`c deg` and `s deg` stand for the cosine and sine of `glm::radians(deg)`. -/
def rotXM (c s : ℚ → ℚ) (deg : ℚ) : Mat4 :=
  !![1, 0, 0, 0; 0, c deg, -(s deg), 0; 0, s deg, c deg, 0; 0, 0, 0, 1]

/-- `glm::rotate(glm::radians(deg), vec3(0,1,0))`: rotation about the Y axis. -/
def rotYM (c s : ℚ → ℚ) (deg : ℚ) : Mat4 :=
  !![c deg, 0, s deg, 0; 0, 1, 0, 0; -(s deg), 0, c deg, 0; 0, 0, 0, 1]

/-- `glm::rotate(glm::radians(deg), vec3(0,0,1))`: rotation about the Z axis. -/
def rotZM (c s : ℚ → ℚ) (deg : ℚ) : Mat4 :=
  !![c deg, -(s deg), 0, 0; s deg, c deg, 0, 0; 0, 0, 1, 0; 0, 0, 0, 1]

/-- `glm::translate(v)`: the translation matrix. -/
def translateM (v : Vec3) : Mat4 :=
  !![1, 0, 0, v.x; 0, 1, 0, v.y; 0, 0, 1, v.z; 0, 0, 0, 1]

/-- The look-at parameters `(eye, target, up)` that determine a view matrix.
`Camera::GetViewMatrix` is kept at this level of abstraction because the view
matrix is a pure function of these three vectors (spec §4.4); the claims below
only compare view matrices for equality, never inspect their entries. -/
structure LookAt where
  eye : Vec3
  target : Vec3
  up : Vec3
deriving DecidableEq, Repr

/-- A projection matrix as produced by `glm::ortho` / `glm::perspective`,
recorded by its defining parameters.  For the perspective case `fovDeg` is the
camera zoom in degrees (the code passes `glm::radians(zoom)` to
`glm::perspective`). -/
inductive Projection where
  | ortho (left right bottom top nearP farP : ℚ)
  | persp (fovDeg aspect nearP farP : ℚ)
deriving DecidableEq, Repr

/-- A value written to the shader uniform sink. -/
inductive UniformValue where
  | mat4 (m : Mat4)
  | look (l : LookAt)
  | proj (p : Projection)
  | vec2 (u v : ℚ)
  | vec3 (v : Vec3)
  | vec4 (v : Vec4)
  | float (x : ℚ)
  | int (n : ℤ)
  | bool (b : Bool)
  | sampler (n : ℤ)
deriving DecidableEq

/-- The uniform sink is the trace of named writes received by the shader
manager, in program order. -/
abbrev Sink := List (String × UniformValue)

/-! ## Transform composer (`SceneManager::SetTransformations`) -/

/-- `SceneManager::SetTransformations`: builds the model matrix from scale,
XYZ rotations (degrees) and translation exactly as the source does
(`modelView = translation * rotationZ * rotationY * rotationX * scale`) and,
when the shader manager is non-null, pushes it under the `"model"` slot. -/
def setTransformations (c s : ℚ → ℚ) (hasShader : Bool)
    (scaleXYZ : Vec3) (xRotationDegrees yRotationDegrees zRotationDegrees : ℚ)
    (positionXYZ : Vec3) (sink : Sink) : Sink :=
  let scale := scaleM scaleXYZ
  let rotationX := rotXM c s xRotationDegrees
  let rotationY := rotYM c s yRotationDegrees
  let rotationZ := rotZM c s zRotationDegrees
  let translation := translateM positionXYZ
  let modelView := translation * rotationZ * rotationY * rotationX * scale
  if hasShader then sink ++ [("model", UniformValue.mat4 modelView)] else sink

/-- The spec-side composition contract (spec §4.2): `T · Rz · Ry · Rx · S`,
translation outermost, then Z-rotation, then Y-rotation, then X-rotation,
then scale. -/
def composeSpec (c s : ℚ → ℚ) (scaleV : Vec3) (rotXDeg rotYDeg rotZDeg : ℚ)
    (translation : Vec3) : Mat4 :=
  translateM translation * rotZM c s rotZDeg * rotYM c s rotYDeg *
    rotXM c s rotXDeg * scaleM scaleV

/-! ## Material table (`OBJECT_MATERIAL`, `FindMaterial`, `SetShaderMaterial`)
and solid-color setup (`SetShaderColor`) -/

/-- The `OBJECT_MATERIAL` record of `SceneManager.h`. -/
structure ObjectMaterial where
  diffuseColor : Vec3
  specularColor : Vec3
  shininess : ℚ
  tag : String
deriving DecidableEq, Repr

/-- The scanning `while` loop of `SceneManager::FindMaterial`: walk the list
until the first entry whose tag matches, copying its diffuse colour, specular
colour and shininess (but not the tag) into the by-reference `material`
argument; if no entry matches, `material` is left untouched. -/
def findMaterialLoop (mats : List ObjectMaterial) (tag : String)
    (material : ObjectMaterial) : ObjectMaterial :=
  match mats with
  | [] => material
  | m :: rest =>
    if m.tag = tag then
      { material with
        diffuseColor := m.diffuseColor
        specularColor := m.specularColor
        shininess := m.shininess }
    else
      findMaterialLoop rest tag material

/-- `SceneManager::FindMaterial`: returns `false` when the material list is
empty; otherwise runs the scanning loop and then executes `return(true)` —
the source returns the literal `true`, not the loop's `bFound` flag.  The
second component is the final value of the by-reference `material` argument. -/
def findMaterial (mats : List ObjectMaterial) (tag : String)
    (material : ObjectMaterial) : Bool × ObjectMaterial :=
  if mats.length = 0 then
    (false, material)
  else
    (true, findMaterialLoop mats tag material)

/-- `SceneManager::SetShaderMaterial`: when the material list is non-empty,
calls `FindMaterial` (passing the uninitialised local `OBJECT_MATERIAL`,
modelled by the `uninit` argument) and, when it returns `true`, pushes the
three `material.*` uniforms. -/
def setShaderMaterial (mats : List ObjectMaterial) (materialTag : String)
    (uninit : ObjectMaterial) (sink : Sink) : Sink :=
  if mats.length > 0 then
    let found := findMaterial mats materialTag uninit
    if found.1 then
      sink ++
        [("material.diffuseColor", UniformValue.vec3 found.2.diffuseColor),
         ("material.specularColor", UniformValue.vec3 found.2.specularColor),
         ("material.shininess", UniformValue.float found.2.shininess)]
    else
      sink
  else
    sink

/-- `SceneManager::SetShaderColor`: when the shader manager is non-null, first
writes `bUseTexture := false` (via `setIntValue`, so the `Bool` is converted
to the integer `0`) and then writes the `objectColor` vec4. -/
def setShaderColor (hasShader : Bool) (red green blue alpha : ℚ)
    (sink : Sink) : Sink :=
  if hasShader then
    sink ++
      [("bUseTexture", UniformValue.int 0),
       ("objectColor", UniformValue.vec4 ⟨red, green, blue, alpha⟩)]
  else
    sink

/-! ## Texture registry

The GL texture module is modelled as a state: `glGenTextures` hands out fresh
nonzero names from a counter, `glTexImage2D` records `(name, format)` uploads,
`glDeleteTextures` records deletions.  Image decoding (`stbi_load`, guarded by
`stbi_set_flip_vertically_on_load`) is the opaque capability
`decode : Bool → String → Option ImageData`. -/

/-- The result of a successful `stbi_load`. -/
structure ImageData where
  width : ℕ
  height : ℕ
  channels : ℕ
deriving DecidableEq, Repr

/-- The pixel formats the two loaders pass to `glTexImage2D`. -/
inductive GLFormat where
  | red
  | rgb
  | rgba
  | rgb8
  | rgba8
deriving DecidableEq, Repr

/-- The state of the GL texture module: a fresh-name counter plus the traces
of uploads and deletions.  Texture name `0` is the GL null texture and is
never handed out by `glGenTextures`. -/
structure GLState where
  nextName : ℕ
  uploads : List (ℕ × GLFormat)
  freed : List ℕ
deriving DecidableEq, Repr

/-- `glGenTextures(1, &id)`: returns a fresh nonzero name. -/
def glGenTexture (g : GLState) : ℕ × GLState :=
  (g.nextName + 1, { g with nextName := g.nextName + 1 })

/-- `glDeleteTextures(1, &id)`. -/
def glDeleteTexture (g : GLState) (h : ℕ) : GLState :=
  { g with freed := g.freed ++ [h] }

/-- `glTexImage2D(GL_TEXTURE_2D, 0, format, w, h, 0, format, ..., data)`. -/
def glTexImage2D (g : GLState) (h : ℕ) (fmt : GLFormat) : GLState :=
  { g with uploads := g.uploads ++ [(h, fmt)] }

/-- `std::map::find` on the tag→handle registry (first match wins; the C++
map has unique keys). -/
def lookupAssoc (m : List (String × ℕ)) (k : String) : Option ℕ :=
  match m with
  | [] => none
  | (k2, v) :: rest => if k2 = k then some v else lookupAssoc rest k

/-- `std::map::operator[]` assignment: overwrite the entry for `k` if present,
otherwise insert a new one. -/
def insertAssoc (m : List (String × ℕ)) (k : String) (v : ℕ) :
    List (String × ℕ) :=
  match m with
  | [] => [(k, v)]
  | (k2, v2) :: rest =>
    if k2 = k then (k2, v) :: rest else (k2, v2) :: insertAssoc rest k v

/-- `SceneManager::loadTextureFromFile(filePath, outTex, flipVertically)` of
the map-based registry: decode; select the pixel format from the channel
count (1 → `GL_RED`, 3 → `GL_RGB`, 4 → `GL_RGBA`, anything else is an error
returning `false` with no texture created); then generate a name and upload.
`none` models the `false` return, `some tex` the `true` return with `outTex`. -/
def loadTextureFromFile (decode : Bool → String → Option ImageData)
    (filePath : String) (flipVertically : Bool) (g : GLState) :
    Option ℕ × GLState :=
  match decode flipVertically filePath with
  | none => (none, g)
  | some img =>
    if img.channels = 1 then
      let gen := glGenTexture g
      (some gen.1, glTexImage2D gen.2 gen.1 GLFormat.red)
    else if img.channels = 3 then
      let gen := glGenTexture g
      (some gen.1, glTexImage2D gen.2 gen.1 GLFormat.rgb)
    else if img.channels = 4 then
      let gen := glGenTexture g
      (some gen.1, glTexImage2D gen.2 gen.1 GLFormat.rgba)
    else
      (none, g)

/-- The overwrite guard of `CreateGLTexture`: if a texture was already
registered under the tag (`find` hit, handle nonzero), delete it to prevent
a leak; otherwise leave the GL state alone. -/
def deleteOld (g : GLState) (oldFound : Option ℕ) : GLState :=
  match oldFound with
  | some old => if old ≠ 0 then glDeleteTexture g old else g
  | none => g

/-- `SceneManager::CreateGLTexture(tag, filePath, flipVertically)` of the
map-based registry: load the file; on failure report `false`; otherwise, if a
texture is already registered under `tag` (and nonzero), delete it first, then
install the new handle under `tag`. -/
def createGLTexture (decode : Bool → String → Option ImageData)
    (tag filePath : String) (flipVertically : Bool)
    (textureMap : List (String × ℕ)) (g : GLState) :
    Bool × List (String × ℕ) × GLState :=
  match loadTextureFromFile decode filePath flipVertically g with
  | (none, g1) => (false, textureMap, g1)
  | (some tex, g1) =>
    (true, insertAssoc textureMap tag tex,
     deleteOld g1 (lookupAssoc textureMap tag))

/-- `SceneManager::DestroyGLTextures` of the map-based registry: delete every
nonzero registered handle, then clear the map. -/
def destroyGLTextures (textureMap : List (String × ℕ)) (g : GLState) :
    List (String × ℕ) × GLState :=
  ([], textureMap.foldl
    (fun acc kv => if kv.2 ≠ 0 then glDeleteTexture acc kv.2 else acc) g)

/-- The legacy array-based `SceneManager::CreateGLTexture(filename, tag)`:
always decodes with vertical flip enabled; on decode success generates a name,
uploads only for 3 or 4 channels (`GL_RGB8` / `GL_RGBA8`), and appends a new
`(tag, ID)` entry to `m_textureIDs` without looking for an existing entry; for
any other channel count it returns `false` (the generated name is abandoned). -/
def createGLTextureArray (decode : Bool → String → Option ImageData)
    (filename tag : String) (entries : List (String × ℕ)) (g : GLState) :
    Bool × List (String × ℕ) × GLState :=
  match decode true filename with
  | none => (false, entries, g)
  | some img =>
    let gen := glGenTexture g
    if img.channels = 3 then
      (true, entries ++ [(tag, gen.1)], glTexImage2D gen.2 gen.1 GLFormat.rgb8)
    else if img.channels = 4 then
      (true, entries ++ [(tag, gen.1)], glTexImage2D gen.2 gen.1 GLFormat.rgba8)
    else
      (false, entries, gen.2)

/-- The legacy `SceneManager::LoadTexture(filepath)`: generates a name first,
then decodes (with whatever global flip setting is current); on success picks
`GL_RGB` when the channel count is 3 and `GL_RGBA` for every other channel
count, uploads, and returns the name; on decode failure returns `0`. -/
def loadTexture (decode : Bool → String → Option ImageData)
    (flipGlobal : Bool) (filepath : String) (g : GLState) : ℕ × GLState :=
  let gen := glGenTexture g
  match decode flipGlobal filepath with
  | some img =>
    let format := if img.channels = 3 then GLFormat.rgb else GLFormat.rgba
    (gen.1, glTexImage2D gen.2 gen.1 format)
  | none => (0, gen.2)

/-! ## Camera and view (`ViewManager`, `Camera`) -/

/-- The mouse-tracking globals of `ViewManager`: `gFirstMouse`, `gLastX`,
`gLastY`. -/
structure MouseTracking where
  firstMouse : Bool
  lastX : ℚ
  lastY : ℚ
deriving DecidableEq, Repr

/-- The orientation part of the camera (`Camera` of camera.h, not under
src/). -/
structure CameraAngles where
  yaw : ℚ
  pitch : ℚ
  mouseSensitivity : ℚ
deriving DecidableEq, Repr

/-- Modelled from the spec: `Camera::ProcessMouseMovement` (camera.h is not in
the sources).  Per spec §4.4, the orientation update is
`yaw += dx·sensitivity, pitch += dy·sensitivity`, with the pitch clamped to
avoid gimbal flip at ±90°; the subsequent recomputation of `front` from
yaw/pitch is a pure function of the two angles and is not modelled. -/
def processMouseMovement (cam : CameraAngles) (dx dy : ℚ) : CameraAngles :=
  let yaw := cam.yaw + dx * cam.mouseSensitivity
  let pitchRaw := cam.pitch + dy * cam.mouseSensitivity
  let pitch := max (-90) (min 90 pitchRaw)
  { cam with yaw := yaw, pitch := pitch }

/-- `ViewManager::Mouse_Position_Callback(window, x, y)`: when the first-move
flag is set, seed `gLastX, gLastY` from the incoming position and clear the
flag; then compute `xOffset = x - gLastX` and `yOffset = gLastY - y`
(Y reversed), store the incoming position into `gLastX, gLastY`, and feed the
offsets to `Camera::ProcessMouseMovement`.  The third component returns the
offset pair that was fed to the orientation update. -/
def mousePositionCallback (st : MouseTracking) (cam : CameraAngles)
    (xMousePos yMousePos : ℚ) : MouseTracking × CameraAngles × (ℚ × ℚ) :=
  let st1 :=
    if st.firstMouse then
      { firstMouse := false, lastX := xMousePos, lastY := yMousePos }
    else
      st
  let xOffset := xMousePos - st1.lastX
  let yOffset := st1.lastY - yMousePos
  let st2 := { st1 with lastX := xMousePos, lastY := yMousePos }
  (st2, processMouseMovement cam xOffset yOffset, (xOffset, yOffset))

/-- The camera state read by `ViewManager::PrepareSceneView`. -/
structure CameraState where
  position : Vec3
  front : Vec3
  up : Vec3
  zoom : ℚ
deriving DecidableEq, Repr

/-- Pointwise sum of vectors (`glm::vec3` addition). -/
def Vec3.add (a b : Vec3) : Vec3 :=
  ⟨a.x + b.x, a.y + b.y, a.z + b.z⟩

/-- Modelled from the spec: `Camera::GetViewMatrix` (camera.h is not in the
sources).  Per spec §4.4 the view matrix is the look-at from `position`
toward `position + front` with `up`; it is recorded by these defining
parameters, of which it is a pure function.  It does not depend on the
projection mode. -/
def getViewMatrix (cam : CameraState) : LookAt :=
  ⟨cam.position, cam.position.add cam.front, cam.up⟩

/-- The projection computation of `ViewManager::PrepareSceneView`: in
orthographic mode, `aspect = WINDOW_WIDTH / WINDOW_HEIGHT`,
`orthoHeight = 10`, `orthoWidth = orthoHeight * aspect`, bounds
`±orthoWidth/2` and `±orthoHeight/2`, near `0.1`, far `100`; in perspective
mode, `glm::perspective(glm::radians(zoom), aspect, 0.1, 100)`. -/
def computeProjection (bOrthographicProjection : Bool)
    (windowWidth windowHeight zoom : ℚ) : Projection :=
  let aspect := windowWidth / windowHeight
  if bOrthographicProjection then
    let orthoHeight : ℚ := 10
    let orthoWidth := orthoHeight * aspect
    Projection.ortho (-(orthoWidth / 2)) (orthoWidth / 2)
      (-(orthoHeight / 2)) (orthoHeight / 2) (1 / 10) 100
  else
    Projection.persp zoom aspect (1 / 10) 100

/-- The matrix-push tail of `ViewManager::PrepareSceneView`: read the view
matrix from the camera, compute the projection from the mode flag, and (when
the shader manager is non-null) push `view`, `projection` and `viewPosition`. -/
def prepareSceneView (hasShader bOrthographicProjection : Bool)
    (windowWidth windowHeight : ℚ) (cam : CameraState) (sink : Sink) : Sink :=
  let view := getViewMatrix cam
  let projection :=
    computeProjection bOrthographicProjection windowWidth windowHeight cam.zoom
  if hasShader then
    sink ++
      [("view", UniformValue.look view),
       ("projection", UniformValue.proj projection),
       ("viewPosition", UniformValue.vec3 cam.position)]
  else
    sink

/-- The projection-mode part of `ViewManager::ProcessKeyboardEvents`: the P
key sets perspective (flag `false`), then the O key sets orthographic (flag
`true`); with neither pressed the flag is unchanged. -/
def projectionToggle (pPressed oPressed bOrthographicProjection : Bool) :
    Bool :=
  let afterP := if pPressed then false else bOrthographicProjection
  if oPressed then true else afterP

/-! ## Persistence store (`DbHelper`) -/

/-- A row of the `profiles` table. -/
structure ProfileRow where
  name : String
  x : ℚ
  y : ℚ
  z : ℚ
  fov : ℚ
  projection : String
deriving DecidableEq, Repr

/-- The contents of the three tables created by `DbHelper::ensureSchema`. -/
structure DbTables where
  profiles : List ProfileRow
  telemetry : List (ℚ × ℚ)
  errors : List (String × String)
deriving DecidableEq, Repr

/-- The `DbHelper` object: `db` is `none` exactly when the `sqlite3*` handle
is null (the open failed and the store degrades to a no-op). -/
structure DbHelper where
  db : Option DbTables
deriving DecidableEq, Repr

/-- The upsert of `saveCameraProfile`
(`INSERT ... ON CONFLICT(name) DO UPDATE`): replace the row with a matching
primary key, or append a new row. -/
def upsertProfile (rows : List ProfileRow) (row : ProfileRow) :
    List ProfileRow :=
  match rows with
  | [] => [row]
  | r :: rest =>
    if r.name = row.name then row :: rest else r :: upsertProfile rest row

/-- `DbHelper::saveCameraProfile`: returns `false` immediately when the
database handle is null; otherwise upserts into `profiles` and reports
success. -/
def saveCameraProfile (h : DbHelper) (name : String) (x y z fov : ℚ)
    (projection : String) : Bool × DbHelper :=
  match h.db with
  | none => (false, h)
  | some t =>
    (true, ⟨some { t with
      profiles := upsertProfile t.profiles ⟨name, x, y, z, fov, projection⟩ }⟩)

/-- `DbHelper::logTelemetry`: returns `false` immediately when the database
handle is null; otherwise inserts into `telemetry`. -/
def logTelemetry (h : DbHelper) (fps frameMs : ℚ) : Bool × DbHelper :=
  match h.db with
  | none => (false, h)
  | some t => (true, ⟨some { t with telemetry := t.telemetry ++ [(fps, frameMs)] }⟩)

/-- `DbHelper::logError`: returns `false` immediately when the database handle
is null; otherwise inserts into `errors`. -/
def logError (h : DbHelper) (source message : String) : Bool × DbHelper :=
  match h.db with
  | none => (false, h)
  | some t => (true, ⟨some { t with errors := t.errors ++ [(source, message)] }⟩)

/-! ## Test decoders

Concrete instances of the decode capability used to evaluate the loaders on
closed inputs. -/

/-- A decode capability that succeeds on every file with a 4×4 3-channel
(RGB) image. -/
def decodeRGB : Bool → String → Option ImageData :=
  fun _ _ => some ⟨4, 4, 3⟩

/-- A decode capability that succeeds on every file with an 8×8 2-channel
(gray+alpha) image. -/
def decodeTwoChannel : Bool → String → Option ImageData :=
  fun _ _ => some ⟨8, 8, 2⟩

/-! ## Helper lemmas on the registry map -/

theorem lookupAssoc_insertAssoc_self (m : List (String × ℕ)) (k : String)
    (v : ℕ) : lookupAssoc (insertAssoc m k v) k = some v := by
  induction m with
  | nil => simp [insertAssoc, lookupAssoc]
  | cons hd tl ih =>
    obtain ⟨k2, v2⟩ := hd
    by_cases hk : k2 = k <;> simp [insertAssoc, lookupAssoc, hk, ih]

theorem filter_eq_nil_of_key_not_mem (m : List (String × ℕ)) (k : String)
    (h : k ∉ m.map Prod.fst) :
    m.filter (fun e => e.1 = k) = [] := by
  induction m with
  | nil => simp
  | cons hd tl ih =>
    simp only [List.map_cons, List.mem_cons, not_or] at h
    simp [List.filter_cons, Ne.symm h.1, ih h.2]

theorem keys_insertAssoc (m : List (String × ℕ)) (k : String) (v : ℕ) :
    (insertAssoc m k v).map Prod.fst = m.map Prod.fst ∨
    ((insertAssoc m k v).map Prod.fst = m.map Prod.fst ++ [k] ∧
      k ∉ m.map Prod.fst) := by
  induction m with
  | nil => right; simp [insertAssoc]
  | cons hd tl ih =>
    obtain ⟨k2, v2⟩ := hd
    by_cases hk : k2 = k
    · subst hk
      left
      simp [insertAssoc]
    · rcases ih with h | ⟨h, hnk⟩
      · left
        simp [insertAssoc, hk, h]
      · right
        refine ⟨by simp [insertAssoc, hk, h], ?_⟩
        simp only [List.map_cons, List.mem_cons, not_or]
        exact ⟨fun hkk => hk hkk.symm, hnk⟩

theorem keysNodup_insertAssoc (m : List (String × ℕ)) (k : String) (v : ℕ)
    (h : (m.map Prod.fst).Nodup) :
    ((insertAssoc m k v).map Prod.fst).Nodup := by
  rcases keys_insertAssoc m k v with hkeys | ⟨hkeys, hnk⟩
  · rw [hkeys]; exact h
  · rw [hkeys]
    simp only [List.nodup_append, List.nodup_cons, List.nodup_nil]
    refine ⟨h, by simp, ?_⟩
    intro a ha hb
    simp only [List.mem_singleton] at hb
    subst hb
    exact hnk ha

theorem countTag_insertAssoc (m : List (String × ℕ)) (k : String) (v : ℕ)
    (h : (m.map Prod.fst).Nodup) :
    ((insertAssoc m k v).filter (fun e => e.1 = k)).length = 1 := by
  induction m with
  | nil => simp [insertAssoc]
  | cons hd tl ih =>
    obtain ⟨k2, v2⟩ := hd
    simp only [List.map_cons, List.nodup_cons] at h
    by_cases hk : k2 = k
    · subst hk
      simp [insertAssoc, List.filter_cons, filter_eq_nil_of_key_not_mem tl k2 h.1]
    · simp [insertAssoc, hk, List.filter_cons, ih h.2]

theorem destroy_foldl_freed (m : List (String × ℕ)) (g : GLState)
    (hlive : ∀ e ∈ m, e.2 ≠ 0) :
    m.foldl (fun acc kv => if kv.2 ≠ 0 then glDeleteTexture acc kv.2 else acc)
        g =
      { g with freed := g.freed ++ m.map Prod.snd } := by
  induction m generalizing g with
  | nil => simp
  | cons hd tl ih =>
    have hhd : hd.2 ≠ 0 := hlive hd (List.mem_cons_self hd tl)
    have htl : ∀ e ∈ tl, e.2 ≠ 0 := fun e he => hlive e (List.mem_cons_of_mem hd he)
    simp only [List.foldl_cons, if_pos hhd]
    rw [ih _ htl]
    simp [glDeleteTexture]

/-! ## Claim theorems -/

/-- C1: for every scale vector, rotation angles (X, Y, Z in degrees) and
translation vector, when the shader manager is non-null,
`SceneManager::SetTransformations` composes the model matrix exactly as
`T · Rz · Ry · Rx · S` (translation outermost, then Z-rotation, then
Y-rotation, then X-rotation, then scale) and pushes exactly that matrix to
the uniform sink under the `"model"` slot — for every interpretation `c`, `s`
of cosine and sine. -/
theorem setTransformations_pushes_T_Rz_Ry_Rx_S
    (c s : ℚ → ℚ) (hasShader : Bool) (scaleXYZ : Vec3)
    (xDeg yDeg zDeg : ℚ) (positionXYZ : Vec3) (sink : Sink)
    (h : hasShader = true) :
    setTransformations c s hasShader scaleXYZ xDeg yDeg zDeg positionXYZ
        sink =
      sink ++ [("model", UniformValue.mat4
        (composeSpec c s scaleXYZ xDeg yDeg zDeg positionXYZ))] := by
  subst h
  simp [setTransformations, composeSpec]

/-- Witness for C1 at a concrete input. -/
theorem setTransformations_pushes_T_Rz_Ry_Rx_S_witness :
    setTransformations (fun _ => 1) (fun _ => 0) true ⟨1, 2, 3⟩ 30 60 90
        ⟨4, 5, 6⟩ [] =
      [] ++ [("model", UniformValue.mat4
        (composeSpec (fun _ => 1) (fun _ => 0) ⟨1, 2, 3⟩ 30 60 90
          ⟨4, 5, 6⟩))] :=
  setTransformations_pushes_T_Rz_Ry_Rx_S (fun _ => 1) (fun _ => 0) true
    ⟨1, 2, 3⟩ 30 60 90 ⟨4, 5, 6⟩ [] rfl

/-- C8: when the persistence store is unavailable (null database handle),
`saveCameraProfile`, `logTelemetry` and `logError` each return `false` and
leave the store untouched (no database writes); all three are total
functions, so no exception escapes. -/
theorem dbHelper_null_handle_degrades_to_noop
    (h : DbHelper) (hnull : h.db = none)
    (name proj src msg : String) (x y z fov fps frameMs : ℚ) :
    saveCameraProfile h name x y z fov proj = (false, h) ∧
    logTelemetry h fps frameMs = (false, h) ∧
    logError h src msg = (false, h) := by
  refine ⟨?_, ?_, ?_⟩ <;>
    simp [saveCameraProfile, logTelemetry, logError, hnull]

/-- Witness for C8 at a concrete input. -/
theorem dbHelper_null_handle_degrades_to_noop_witness :
    saveCameraProfile ⟨none⟩ "main" 1 2 3 45 "ORTHO" = (false, ⟨none⟩) ∧
    logTelemetry ⟨none⟩ 60 (1 / 60) = (false, ⟨none⟩) ∧
    logError ⟨none⟩ "render" "oops" = (false, ⟨none⟩) :=
  dbHelper_null_handle_degrades_to_noop ⟨none⟩ rfl "main" "ORTHO" "render"
    "oops" 1 2 3 45 60 (1 / 60)

/-- C9: every call to `SceneManager::SetShaderColor` with a non-null shader
manager writes `bUseTexture := false` (as integer `0`) strictly before the
`objectColor` vec4, so a solid-color draw cannot sample a texture left
enabled by a previous object. -/
theorem setShaderColor_disables_texture_before_color
    (red green blue alpha : ℚ) (sink : Sink) (hasShader : Bool)
    (h : hasShader = true) :
    setShaderColor hasShader red green blue alpha sink =
      sink ++ [("bUseTexture", UniformValue.int 0),
               ("objectColor", UniformValue.vec4 ⟨red, green, blue, alpha⟩)] := by
  subst h
  simp [setShaderColor]

/-- Witness for C9 at a concrete input. -/
theorem setShaderColor_disables_texture_before_color_witness :
    setShaderColor true (9 / 10) (9 / 10) (9 / 10) 1 [] =
      [] ++ [("bUseTexture", UniformValue.int 0),
             ("objectColor",
               UniformValue.vec4 ⟨9 / 10, 9 / 10, 9 / 10, 1⟩)] :=
  setShaderColor_disables_texture_before_color (9 / 10) (9 / 10) (9 / 10) 1
    [] true rfl

/-- C10: `SceneManager::DestroyGLTextures` (map registry) is idempotent:
provided every registered handle is live (nonzero, as `CreateGLTexture`
guarantees), one call deletes every stored handle — in registry order — and
empties the tag→handle map, and a second call performs no deletions and
returns the same empty state. -/
theorem destroyGLTextures_idempotent
    (m : List (String × ℕ)) (g : GLState)
    (hlive : ∀ e ∈ m, e.2 ≠ 0) :
    (destroyGLTextures m g).1 = [] ∧
    (destroyGLTextures m g).2.freed = g.freed ++ m.map Prod.snd ∧
    (destroyGLTextures m g).2.uploads = g.uploads ∧
    (destroyGLTextures m g).2.nextName = g.nextName ∧
    destroyGLTextures (destroyGLTextures m g).1 (destroyGLTextures m g).2 =
      ([], (destroyGLTextures m g).2) := by
  have key : destroyGLTextures m g =
      ([], { g with freed := g.freed ++ m.map Prod.snd }) := by
    rw [destroyGLTextures, destroy_foldl_freed m g hlive]
  rw [key]
  exact ⟨rfl, rfl, rfl, rfl, rfl⟩

/-- Witness for C10 at a concrete input. -/
theorem destroyGLTextures_idempotent_witness :
    (destroyGLTextures [("wood", 1), ("glass", 2)] ⟨2, [], []⟩).1 = [] ∧
    (destroyGLTextures [("wood", 1), ("glass", 2)] ⟨2, [], []⟩).2.freed =
      [] ++ [1, 2] ∧
    (destroyGLTextures [("wood", 1), ("glass", 2)] ⟨2, [], []⟩).2.uploads =
      [] ∧
    (destroyGLTextures [("wood", 1), ("glass", 2)] ⟨2, [], []⟩).2.nextName =
      2 ∧
    destroyGLTextures
        (destroyGLTextures [("wood", 1), ("glass", 2)] ⟨2, [], []⟩).1
        (destroyGLTextures [("wood", 1), ("glass", 2)] ⟨2, [], []⟩).2 =
      ([], (destroyGLTextures [("wood", 1), ("glass", 2)] ⟨2, [], []⟩).2) :=
  destroyGLTextures_idempotent [("wood", 1), ("glass", 2)] ⟨2, [], []⟩
    (by decide)

/-- The `"glass"` material of the end-to-end scenario: diffuse
`(0.1, 0.1, 0.1)`, specular `(0.6, 0.6, 0.6)`, shininess `32`. -/
def glassMaterial : ObjectMaterial :=
  ⟨⟨1 / 10, 1 / 10, 1 / 10⟩, ⟨3 / 5, 3 / 5, 3 / 5⟩, 32, "glass"⟩

/-- A stand-in for the indeterminate contents of the uninitialised local
`OBJECT_MATERIAL material` in `SceneManager::SetShaderMaterial`. -/
def junkMaterial : ObjectMaterial :=
  ⟨⟨7, 8, 9⟩, ⟨10, 11, 12⟩, 13, "junk"⟩

/-- C2: evaluation of the source at the failing input.  With the material
table containing only the registered `"glass"` material, looking up the
unregistered tag `"unknown"` returns `found = true` — `FindMaterial` ends in
`return(true)` and ignores its `bFound` flag whenever the table is non-empty
— while leaving the by-reference material argument untouched, and
`SetShaderMaterial` consequently pushes three `material.*` uniforms carrying
the uninitialised local's values to the sink.  The claim (and spec §8) say
the lookup must report `found = false` with no sink writes.  The registered
tag behaves as claimed: `"glass"` is found and its three values are pushed. -/
theorem findMaterial_unknown_tag_returns_true_and_writes :
    (findMaterial [glassMaterial] "unknown" junkMaterial).1 = true ∧
    (findMaterial [glassMaterial] "unknown" junkMaterial).2 = junkMaterial ∧
    setShaderMaterial [glassMaterial] "unknown" junkMaterial [] =
      [("material.diffuseColor", UniformValue.vec3 ⟨7, 8, 9⟩),
       ("material.specularColor", UniformValue.vec3 ⟨10, 11, 12⟩),
       ("material.shininess", UniformValue.float 13)] ∧
    setShaderMaterial [glassMaterial] "glass" junkMaterial [] =
      [("material.diffuseColor", UniformValue.vec3 ⟨1 / 10, 1 / 10, 1 / 10⟩),
       ("material.specularColor", UniformValue.vec3 ⟨3 / 5, 3 / 5, 3 / 5⟩),
       ("material.shininess", UniformValue.float 32)] := by
  refine ⟨rfl, rfl, ?_, ?_⟩ <;> rfl

/-- C5: starting from session start (`gFirstMouse = true`), the first call to
`ViewManager::Mouse_Position_Callback` seeds `gLastX, gLastY` from the
incoming position and clears the first-move flag; provided the camera's pitch
is within the clamp range, the first call leaves yaw and pitch unchanged (the
offset it feeds to the orientation update is `(0, 0)`), and the second call
feeds exactly the delta `(x2 - x1, y1 - y2)` (Y inverted) to the orientation
update. -/
theorem mouseCallback_first_seeds_second_delta
    (cam : CameraAngles) (st0 : MouseTracking) (x1 y1 x2 y2 : ℚ)
    (hfirst : st0.firstMouse = true)
    (hlo : -90 ≤ cam.pitch) (hhi : cam.pitch ≤ 90) :
    (mousePositionCallback st0 cam x1 y1).1 = ⟨false, x1, y1⟩ ∧
    (mousePositionCallback st0 cam x1 y1).2.2 = (0, 0) ∧
    (mousePositionCallback st0 cam x1 y1).2.1.yaw = cam.yaw ∧
    (mousePositionCallback st0 cam x1 y1).2.1.pitch = cam.pitch ∧
    (mousePositionCallback (mousePositionCallback st0 cam x1 y1).1
        (mousePositionCallback st0 cam x1 y1).2.1 x2 y2).2.2 =
      (x2 - x1, y1 - y2) := by
  have h1 : mousePositionCallback st0 cam x1 y1 =
      (⟨false, x1, y1⟩,
       { cam with pitch := max (-90) (min 90 cam.pitch) }, (0, 0)) := by
    simp [mousePositionCallback, processMouseMovement, hfirst]
  have hclamp : max (-90 : ℚ) (min 90 cam.pitch) = cam.pitch := by
    rw [min_eq_right hhi, max_eq_right hlo]
  refine ⟨?_, ?_, ?_, ?_, ?_⟩
  · rw [h1]
  · rw [h1]
  · rw [h1]
  · rw [h1]; exact hclamp
  · rw [h1]
    simp [mousePositionCallback]

/-- Witness for C5 at a concrete input. -/
theorem mouseCallback_first_seeds_second_delta_witness :
    (mousePositionCallback ⟨true, 0, 0⟩ ⟨-45, 10, 1 / 10⟩ 400 300).1 =
      ⟨false, 400, 300⟩ ∧
    (mousePositionCallback ⟨true, 0, 0⟩ ⟨-45, 10, 1 / 10⟩ 400 300).2.2 =
      (0, 0) ∧
    (mousePositionCallback ⟨true, 0, 0⟩ ⟨-45, 10, 1 / 10⟩ 400 300).2.1.yaw =
      CameraAngles.yaw ⟨-45, 10, 1 / 10⟩ ∧
    (mousePositionCallback ⟨true, 0, 0⟩ ⟨-45, 10, 1 / 10⟩
        400 300).2.1.pitch = CameraAngles.pitch ⟨-45, 10, 1 / 10⟩ ∧
    (mousePositionCallback
        (mousePositionCallback ⟨true, 0, 0⟩ ⟨-45, 10, 1 / 10⟩ 400 300).1
        (mousePositionCallback ⟨true, 0, 0⟩ ⟨-45, 10, 1 / 10⟩
          400 300).2.1 410 280).2.2 = (410 - 400, 300 - 280) :=
  mouseCallback_first_seeds_second_delta ⟨-45, 10, 1 / 10⟩ ⟨true, 0, 0⟩
    400 300 410 280 rfl (by norm_num) (by norm_num)

/-- C6: counterexample to the claim as stated.  The claim calls `10` the
fixed vertical half-height; at window size 1000×800 (aspect `5/4`) the source
computes vertical bounds `±5` and horizontal bounds `±25/4` — the bounds a
vertical half-height of `10` would give (`±10` vertically, `±25/2`
horizontally, keeping `orthoWidth = orthoHeight · aspect`) are not produced.
`10` is the full ortho height; the half-height is `5`. -/
theorem computeProjection_half_height_counterexample :
    computeProjection true 1000 800 80 =
      Projection.ortho (-(25 / 4)) (25 / 4) (-5) 5 (1 / 10) 100 ∧
    computeProjection true 1000 800 80 ≠
      Projection.ortho (-(25 / 2)) (25 / 2) (-10) 10 (1 / 10) 100 := by
  constructor
  · simp [computeProjection]
    norm_num
  · simp [computeProjection]
    norm_num

/-- C6 (amended): every frame in orthographic mode the projection bounds are
computed from a fixed vertical **full height** of 10 units (half-height 5)
and the window aspect ratio, with near plane `0.1` and far plane `100`, and
the ortho width satisfies `orthoWidth = orthoHeight · aspect` for every
aspect ratio; in perspective mode the projection uses the camera's zoom value
as field-of-view with the same aspect ratio and near/far planes. -/
theorem computeProjection_bounds (w h zoom : ℚ) :
    computeProjection true w h zoom =
      Projection.ortho (-(10 * (w / h) / 2)) (10 * (w / h) / 2) (-5) 5
        (1 / 10) 100 ∧
    10 * (w / h) / 2 - -(10 * (w / h) / 2) = 10 * (w / h) ∧
    (5 : ℚ) - -5 = 10 ∧
    computeProjection false w h zoom =
      Projection.persp zoom (w / h) (1 / 10) 100 := by
  refine ⟨?_, by ring, by norm_num, ?_⟩
  · simp [computeProjection]
    norm_num
  · simp [computeProjection]

/-- C7: for every camera state, window size and prior sink contents, flipping
the projection-mode flag (as the P/O key handler does) and re-running the
`PrepareSceneView` matrix pushes leaves the pushed `view` matrix and
`viewPosition` unchanged and changes only the pushed `projection`; the
projection-mode flag has no influence on the view-matrix computation, and the
two projections really differ (orthographic vs. perspective). -/
theorem prepareSceneView_toggle_changes_only_projection
    (b : Bool) (w h : ℚ) (cam : CameraState) (sink : Sink) :
    prepareSceneView true b w h cam sink =
      sink ++ [("view", UniformValue.look (getViewMatrix cam)),
               ("projection",
                 UniformValue.proj (computeProjection b w h cam.zoom)),
               ("viewPosition", UniformValue.vec3 cam.position)] ∧
    prepareSceneView true (!b) w h cam sink =
      sink ++ [("view", UniformValue.look (getViewMatrix cam)),
               ("projection",
                 UniformValue.proj (computeProjection (!b) w h cam.zoom)),
               ("viewPosition", UniformValue.vec3 cam.position)] ∧
    projectionToggle b (!b) b = !b ∧
    computeProjection b w h cam.zoom ≠ computeProjection (!b) w h cam.zoom := by
  refine ⟨by simp [prepareSceneView], by simp [prepareSceneView], ?_, ?_⟩
  · cases b <;> rfl
  · cases b <;> simp [computeProjection]

theorem deleteOld_nextName (g : GLState) (oldFound : Option ℕ) :
    (deleteOld g oldFound).nextName = g.nextName := by
  rcases oldFound with _ | old
  · rfl
  · by_cases h : old ≠ 0 <;> simp [deleteOld, h, glDeleteTexture]

theorem deleteOld_freed_of_live (g : GLState) (old : ℕ) (h : old ≠ 0) :
    (deleteOld g (some old)).freed = g.freed ++ [old] := by
  simp [deleteOld, h, glDeleteTexture]

theorem loadTextureFromFile_success_of_channels
    (decode : Bool → String → Option ImageData) (filePath : String)
    (flip : Bool) (g : GLState) (img : ImageData)
    (hd : decode flip filePath = some img)
    (hc : img.channels = 1 ∨ img.channels = 3 ∨ img.channels = 4) :
    ∃ fmt, loadTextureFromFile decode filePath flip g =
      (some (g.nextName + 1),
       ⟨g.nextName + 1, g.uploads ++ [(g.nextName + 1, fmt)], g.freed⟩) := by
  rcases hc with h | h | h
  · exact ⟨GLFormat.red,
      by simp [loadTextureFromFile, hd, h, glGenTexture, glTexImage2D]⟩
  · exact ⟨GLFormat.rgb,
      by simp [loadTextureFromFile, hd, h, glGenTexture, glTexImage2D]⟩
  · exact ⟨GLFormat.rgba,
      by simp [loadTextureFromFile, hd, h, glGenTexture, glTexImage2D]⟩

theorem createGLTexture_success_shape
    (decode : Bool → String → Option ImageData) (tag filePath : String)
    (flip : Bool) (m : List (String × ℕ)) (g : GLState) (img : ImageData)
    (hd : decode flip filePath = some img)
    (hc : img.channels = 1 ∨ img.channels = 3 ∨ img.channels = 4) :
    ∃ fmt, createGLTexture decode tag filePath flip m g =
      (true, insertAssoc m tag (g.nextName + 1),
       deleteOld
         ⟨g.nextName + 1, g.uploads ++ [(g.nextName + 1, fmt)], g.freed⟩
         (lookupAssoc m tag)) := by
  obtain ⟨fmt, hload⟩ :=
    loadTextureFromFile_success_of_channels decode filePath flip g img hd hc
  exact ⟨fmt, by simp [createGLTexture, hload]⟩

/-- C3: counterexample to the claim as stated.  The claim quantifies over
every texture-registry load operation, including the legacy array-based
`CreateGLTexture(filename, tag)` (`m_textureIDs` / `m_loadedTextures`).
Loading the same tag `"wood"` twice with two successfully-decoded RGB files
leaves **two** registered entries under the tag — handles 1 and 2 — and never
frees the first handle. -/
theorem createGLTextureArray_double_load_leaks :
    ((createGLTextureArray decodeRGB "file1.png" "wood" [] ⟨0, [], []⟩).1 =
      true) ∧
    ((createGLTextureArray decodeRGB "file2.png" "wood"
        (createGLTextureArray decodeRGB "file1.png" "wood" []
          ⟨0, [], []⟩).2.1
        (createGLTextureArray decodeRGB "file1.png" "wood" []
          ⟨0, [], []⟩).2.2).1 = true) ∧
    (createGLTextureArray decodeRGB "file2.png" "wood"
        (createGLTextureArray decodeRGB "file1.png" "wood" []
          ⟨0, [], []⟩).2.1
        (createGLTextureArray decodeRGB "file1.png" "wood" []
          ⟨0, [], []⟩).2.2).2.1 = [("wood", 1), ("wood", 2)] ∧
    (createGLTextureArray decodeRGB "file2.png" "wood"
        (createGLTextureArray decodeRGB "file1.png" "wood" []
          ⟨0, [], []⟩).2.1
        (createGLTextureArray decodeRGB "file1.png" "wood" []
          ⟨0, [], []⟩).2.2).2.2.freed = [] ∧
    ([("wood", 1), ("wood", 2)].length ≠ 1) := by
  exact ⟨rfl, rfl, rfl, rfl, by decide⟩

/-- C3 (amended): for the map-based registry
(`CreateGLTexture(tag, filePath, flipVertically)` over `m_textureMap`) the
claim holds: loading the same tag twice with two successfully-decoded files
(any supported channel count) leaves exactly one live handle mapped to that
tag — the second, fresh handle `g0.nextName + 2` — and the first handle
`g0.nextName + 1` is freed during the second call, before the replacement is
installed.  The legacy array-based `CreateGLTexture(filename, tag)` instead
appends a duplicate entry and never frees the first handle. -/
theorem createGLTexture_same_tag_twice_one_live_handle
    (decode : Bool → String → Option ImageData) (tag f1 f2 : String)
    (fl1 fl2 : Bool) (m0 : List (String × ℕ)) (g0 : GLState)
    (img1 img2 : ImageData)
    (ok1 ok2 : Bool) (m1 m2 : List (String × ℕ)) (g1 g2 : GLState)
    (hd1 : decode fl1 f1 = some img1)
    (hc1 : img1.channels = 1 ∨ img1.channels = 3 ∨ img1.channels = 4)
    (hd2 : decode fl2 f2 = some img2)
    (hc2 : img2.channels = 1 ∨ img2.channels = 3 ∨ img2.channels = 4)
    (hkeys : (m0.map Prod.fst).Nodup)
    (e1 : createGLTexture decode tag f1 fl1 m0 g0 = (ok1, m1, g1))
    (e2 : createGLTexture decode tag f2 fl2 m1 g1 = (ok2, m2, g2)) :
    ok1 = true ∧ ok2 = true ∧
    lookupAssoc m2 tag = some (g0.nextName + 2) ∧
    (m2.filter (fun e => e.1 = tag)).length = 1 ∧
    g2.freed = g1.freed ++ [g0.nextName + 1] := by
  obtain ⟨fmt1, h1⟩ :=
    createGLTexture_success_shape decode tag f1 fl1 m0 g0 img1 hd1 hc1
  rw [h1] at e1
  injection e1 with ha hbc
  injection hbc with hb hc
  subst ha
  subst hb
  subst hc
  obtain ⟨fmt2, h2⟩ :=
    createGLTexture_success_shape decode tag f2 fl2 _ _ img2 hd2 hc2
  rw [h2] at e2
  injection e2 with ha2 hbc2
  injection hbc2 with hb2 hc2e
  subst ha2
  subst hb2
  subst hc2e
  have hn1 :
      (deleteOld
        ⟨g0.nextName + 1, g0.uploads ++ [(g0.nextName + 1, fmt1)], g0.freed⟩
        (lookupAssoc m0 tag)).nextName = g0.nextName + 1 := by
    rw [deleteOld_nextName]
  refine ⟨rfl, rfl, ?_, ?_, ?_⟩
  · rw [lookupAssoc_insertAssoc_self, hn1]
  · exact countTag_insertAssoc _ tag _
      (keysNodup_insertAssoc m0 tag _ hkeys)
  · rw [lookupAssoc_insertAssoc_self m0 tag (g0.nextName + 1),
      deleteOld_freed_of_live _ _ (Nat.succ_ne_zero g0.nextName)]

/-- Witness for C3 (amended) at a concrete input: two RGB loads of the tag
`"wood"` into an empty registry leave the single live handle 2 mapped to the
tag, with handle 1 freed. -/
theorem createGLTexture_same_tag_twice_one_live_handle_witness :
    true = true ∧ true = true ∧
    lookupAssoc [("wood", 2)] "wood" = some (GLState.nextName ⟨0, [], []⟩ + 2) ∧
    (([("wood", 2)] : List (String × ℕ)).filter
      (fun e => e.1 = "wood")).length = 1 ∧
    GLState.freed ⟨2, [(1, GLFormat.rgb), (2, GLFormat.rgb)], [1]⟩ =
      GLState.freed ⟨1, [(1, GLFormat.rgb)], []⟩ ++
        [GLState.nextName ⟨0, [], []⟩ + 1] :=
  createGLTexture_same_tag_twice_one_live_handle decodeRGB "wood"
    "file1.png" "file2.png" true false [] ⟨0, [], []⟩ ⟨4, 4, 3⟩ ⟨4, 4, 3⟩
    true true [("wood", 1)] [("wood", 2)] ⟨1, [(1, GLFormat.rgb)], []⟩
    ⟨2, [(1, GLFormat.rgb), (2, GLFormat.rgb)], [1]⟩
    rfl (Or.inr (Or.inl rfl)) rfl (Or.inr (Or.inl rfl)) (by simp)
    (by decide) (by decide)

/-- C4: counterexample to the claim as stated.  The claim quantifies over
every texture-loading operation, but the legacy
`SceneManager::LoadTexture(filepath)` (used by `LoadSceneTextures`) coerces
any channel count other than 3 to `GL_RGBA`: decoding a 2-channel image does
not fail — it returns the live handle 1 and uploads the pixels as RGBA. -/
theorem loadTexture_two_channels_installs_rgba :
    (loadTexture decodeTwoChannel true "gray_alpha.png" ⟨0, [], []⟩).1 = 1 ∧
    (loadTexture decodeTwoChannel true "gray_alpha.png" ⟨0, [], []⟩).1 ≠ 0 ∧
    (loadTexture decodeTwoChannel true "gray_alpha.png"
      ⟨0, [], []⟩).2.uploads = [(1, GLFormat.rgba)] :=
  ⟨rfl, by decide, rfl⟩

/-- C4 (amended): the enhanced loader
`SceneManager::loadTextureFromFile` — and therefore the map-based
`CreateGLTexture` built on it — satisfies the claim: any decoded image whose
channel count is not 1, 3 or 4 yields a failure result with no texture
created and no pixel upload, and channel counts 1, 3, 4 map to
`GL_RED` (single-channel), `GL_RGB`, `GL_RGBA` respectively.  The legacy
`LoadTexture` instead coerces every channel count other than 3 to RGBA. -/
theorem loadTextureFromFile_channel_contract
    (decode : Bool → String → Option ImageData) (filePath : String)
    (flip : Bool) (g : GLState) (img : ImageData)
    (hd : decode flip filePath = some img) :
    (img.channels ≠ 1 → img.channels ≠ 3 → img.channels ≠ 4 →
      loadTextureFromFile decode filePath flip g = (none, g) ∧
      ∀ (tag : String) (m : List (String × ℕ)),
        createGLTexture decode tag filePath flip m g = (false, m, g)) ∧
    (img.channels = 1 →
      loadTextureFromFile decode filePath flip g =
        (some (g.nextName + 1),
         ⟨g.nextName + 1, g.uploads ++ [(g.nextName + 1, GLFormat.red)],
          g.freed⟩)) ∧
    (img.channels = 3 →
      loadTextureFromFile decode filePath flip g =
        (some (g.nextName + 1),
         ⟨g.nextName + 1, g.uploads ++ [(g.nextName + 1, GLFormat.rgb)],
          g.freed⟩)) ∧
    (img.channels = 4 →
      loadTextureFromFile decode filePath flip g =
        (some (g.nextName + 1),
         ⟨g.nextName + 1, g.uploads ++ [(g.nextName + 1, GLFormat.rgba)],
          g.freed⟩)) := by
  refine ⟨fun h1 h3 h4 => ?_, fun h => ?_, fun h => ?_, fun h => ?_⟩
  · have hfail : loadTextureFromFile decode filePath flip g = (none, g) := by
      simp [loadTextureFromFile, hd, h1, h3, h4]
    exact ⟨hfail, fun tag m => by simp [createGLTexture, hfail]⟩
  · simp [loadTextureFromFile, hd, h, glGenTexture, glTexImage2D]
  · simp [loadTextureFromFile, hd, h, glGenTexture, glTexImage2D]
  · simp [loadTextureFromFile, hd, h, glGenTexture, glTexImage2D]

/-- Witness for C4 (amended) at a concrete input: a 2-channel decode makes
`loadTextureFromFile` fail with no state change, and `CreateGLTexture`
reports failure leaving the registry untouched. -/
theorem loadTextureFromFile_channel_contract_witness :
    ((8 : ℕ) ≠ 1 ∧ (8 : ℕ) ≠ 3 ∧ (8 : ℕ) ≠ 4) ∧
    ((ImageData.channels ⟨8, 8, 2⟩ ≠ 1 → ImageData.channels ⟨8, 8, 2⟩ ≠ 3 →
      ImageData.channels ⟨8, 8, 2⟩ ≠ 4 →
      loadTextureFromFile decodeTwoChannel "gray_alpha.png" true
          ⟨0, [], []⟩ = (none, ⟨0, [], []⟩) ∧
      ∀ (tag : String) (m : List (String × ℕ)),
        createGLTexture decodeTwoChannel tag "gray_alpha.png" true m
            ⟨0, [], []⟩ = (false, m, ⟨0, [], []⟩)) ∧
    (ImageData.channels ⟨8, 8, 2⟩ = 1 →
      loadTextureFromFile decodeTwoChannel "gray_alpha.png" true
          ⟨0, [], []⟩ =
        (some (GLState.nextName ⟨0, [], []⟩ + 1),
         ⟨GLState.nextName ⟨0, [], []⟩ + 1,
          GLState.uploads ⟨0, [], []⟩ ++
            [(GLState.nextName ⟨0, [], []⟩ + 1, GLFormat.red)],
          GLState.freed ⟨0, [], []⟩⟩)) ∧
    (ImageData.channels ⟨8, 8, 2⟩ = 3 →
      loadTextureFromFile decodeTwoChannel "gray_alpha.png" true
          ⟨0, [], []⟩ =
        (some (GLState.nextName ⟨0, [], []⟩ + 1),
         ⟨GLState.nextName ⟨0, [], []⟩ + 1,
          GLState.uploads ⟨0, [], []⟩ ++
            [(GLState.nextName ⟨0, [], []⟩ + 1, GLFormat.rgb)],
          GLState.freed ⟨0, [], []⟩⟩)) ∧
    (ImageData.channels ⟨8, 8, 2⟩ = 4 →
      loadTextureFromFile decodeTwoChannel "gray_alpha.png" true
          ⟨0, [], []⟩ =
        (some (GLState.nextName ⟨0, [], []⟩ + 1),
         ⟨GLState.nextName ⟨0, [], []⟩ + 1,
          GLState.uploads ⟨0, [], []⟩ ++
            [(GLState.nextName ⟨0, [], []⟩ + 1, GLFormat.rgba)],
          GLState.freed ⟨0, [], []⟩⟩))) :=
  ⟨by decide,
   loadTextureFromFile_channel_contract decodeTwoChannel "gray_alpha.png"
     true ⟨0, [], []⟩ ⟨8, 8, 2⟩ rfl⟩

end Scene3D
